import Mathlib

/-!
A verification development for the rindex directory-listing server
(src/explorer.rs, src/service.rs).  The Rust code is shallowly embedded:
pure functions become Lean functions, filesystem access becomes explicit
input data (`DirEntry`, `Metadata`, `PathInfo`), fallible code returns
`Except`, and the `entry.unwrap()` panic possibility is a distinguished
outcome constructor.  Machine integers (`u64` sizes, second counts) are
modelled as `Nat`; the values involved never overflow in the claims
considered.  Rust `String` comparison is byte-wise lexicographic on
UTF-8, which coincides with code-point lexicographic order, i.e. Lean's
`String` order.
-/

/-- The entry model from src/explorer.rs: `enum ExplorerEntry` with
variants `Directory { mtime, name }` and `File { mtime, name, size }`
(fields in Rust declaration order). -/
inductive ExplorerEntry where
  | directory (mtime : String) (name : String)
  | file (mtime : String) (name : String) (size : Nat)
deriving DecidableEq, Repr

/-- The `name` field common to both variants. -/
def ExplorerEntry.name : ExplorerEntry → String
  | .directory _ n => n
  | .file _ n _ => n

/-- The `mtime` field common to both variants. -/
def ExplorerEntry.mtime : ExplorerEntry → String
  | .directory m _ => m
  | .file m _ _ => m

/-- Whether the entry is the `Directory` variant. -/
def ExplorerEntry.isDirectory : ExplorerEntry → Bool
  | .directory _ _ => true
  | .file _ _ _ => false

/-- Whether the entry is the `File` variant. -/
def ExplorerEntry.isFile : ExplorerEntry → Bool
  | .directory _ _ => false
  | .file _ _ _ => true

/-- `impl Ord for ExplorerEntry` (src/explorer.rs lines 21-32):
same-variant pairs compare by `name` (Rust `String::cmp`, byte-wise
lexicographic, embedded as Lean `compare` on `String`); otherwise a
`Directory` is `Less` than a `File`. -/
def ExplorerEntry.cmp : ExplorerEntry → ExplorerEntry → Ordering
  | .directory _ name_a, .directory _ name_b => compare name_a name_b
  | .file _ name_a _, .file _ name_b _ => compare name_a name_b
  | .directory _ _, _ => Ordering.lt
  | _, .directory _ _ => Ordering.gt

/-- `impl PartialOrd for ExplorerEntry` (src/explorer.rs lines 34-38):
`fn partial_cmp(&self, other) { Some(self.cmp(other)) }`. -/
def ExplorerEntry.pcmp (a b : ExplorerEntry) : Option Ordering :=
  some (a.cmp b)

/-- The boolean `≤` induced by `ExplorerEntry.cmp`, i.e. `cmp a b ≠ Greater`;
this is the relation a sort by `Ord` leaves consecutive elements in. -/
def entryLe (a b : ExplorerEntry) : Bool :=
  decide (a.cmp b ≠ Ordering.gt)

/-- `file_list.par_sort()` (src/service.rs line 115): rayon's stable
parallel merge sort by the `Ord` instance.  Its observable result is a
sequential merge sort by `entryLe`. -/
def sortEntries (l : List ExplorerEntry) : List ExplorerEntry :=
  l.mergeSort entryLe

/-- Why `fs::metadata` failed for a path.  The distinction exists at the
operating-system level; the Rust code's `map_err(|_| ...)` discards it. -/
inductive MetadataError where
  | missingSymlinkTarget
  | permissionDenied
  | otherIo
deriving DecidableEq, Repr

/-- `std::fs::Metadata` as used by `ExplorerEntry::new`: the `is_dir()`
classification, the `len()` byte size, and the `modified()` timestamp
(seconds since the Unix epoch; `Except Unit` because `modified()` is an
`io::Result`). -/
structure Metadata where
  is_dir : Bool
  len : Nat
  modified : Except Unit Nat
deriving Repr

/-- A raw `std::fs::DirEntry` as consumed by `ExplorerEntry::new`:
`path` is `file.path()` rendered lossily for error messages,
`file_name` is `file.file_name().to_str()` (`none` when the name is not
valid text), and `metadata` is the result of `fs::metadata(&path)`
(following symlinks), carrying the underlying failure reason on error. -/
structure DirEntry where
  path : String
  file_name : Option String
  metadata : Except MetadataError Metadata
deriving Repr

/-- The error type of `ExplorerEntry::new` (src/explorer.rs):
`ExplorerError::MissingSymlinkTarget`, `ExplorerError::InvalidFileName`,
and the generic `io::Error` propagated by `metadata.modified()?`
(type-erased into `anyhow::Error` in Rust). -/
inductive ExplorerError where
  | missingSymlinkTarget (path : String)
  | invalidFileName (path : String)
  | ioError
deriving DecidableEq, Repr

/-- Month lengths starting from March (the `months` table in httpdate's
`HttpDate::from(SystemTime)`, year re-based at 2000-03-01). -/
def monthsTable : List Nat := [31, 30, 31, 30, 31, 31, 30, 31, 30, 31, 31, 29]

/-- The `for mon_len in months.iter()` loop of httpdate: returns the
number of table entries consumed (1-based month index from March) and
the remaining day count. -/
def monthLoop : List Nat → Nat → Nat × Nat
  | [], remdays => (0, remdays)
  | mon_len :: rest, remdays =>
    if remdays < mon_len then (1, remdays)
    else
      let p := monthLoop rest (remdays - mon_len)
      (p.1 + 1, p.2)

/-- Three-letter weekday name used by httpdate's `Display` (1 = Mon). -/
def wdayName : Nat → String
  | 1 => "Mon"
  | 2 => "Tue"
  | 3 => "Wed"
  | 4 => "Thu"
  | 5 => "Fri"
  | 6 => "Sat"
  | 7 => "Sun"
  | _ => ""

/-- Three-letter month name used by httpdate's `Display` (1 = Jan). -/
def monName : Nat → String
  | 1 => "Jan"
  | 2 => "Feb"
  | 3 => "Mar"
  | 4 => "Apr"
  | 5 => "May"
  | 6 => "Jun"
  | 7 => "Jul"
  | 8 => "Aug"
  | 9 => "Sep"
  | 10 => "Oct"
  | 11 => "Nov"
  | 12 => "Dec"
  | _ => ""

/-- Zero-pad a number to two decimal digits. -/
def pad2 (n : Nat) : String :=
  if n < 10 then "0" ++ toString n else toString n

/-- Zero-pad a number to four decimal digits. -/
def pad4 (n : Nat) : String :=
  if n < 10 then "000" ++ toString n
  else if n < 100 then "00" ++ toString n
  else if n < 1000 then "0" ++ toString n
  else toString n

/-- `httpdate::fmt_http_date` on a `SystemTime` that is `secs` seconds
after the Unix epoch: the civil-date computation of
`HttpDate::from(SystemTime)` (musl-derived, re-based at 2000-03-01,
Rust `i64` division embedded as `Int.tdiv`/`Int.tmod`) followed by the
fixed-width `Www, DD Mmm YYYY HH:MM:SS GMT` rendering of its `Display`
instance, which is RFC 7231 IMF-fixdate. -/
def fmt_http_date (secs_since_epoch : Nat) : String :=
  let leapoch : Int := 11017
  let days_per_400y : Int := 365 * 400 + 97
  let days_per_100y : Int := 365 * 100 + 24
  let days_per_4y : Int := 365 * 4 + 1
  let days : Int := (secs_since_epoch / 86400 : Nat) - leapoch
  let secs_of_day : Nat := secs_since_epoch % 86400
  let qc_cycles : Int := days.tdiv days_per_400y
  let remdays : Int := days.tmod days_per_400y
  let qc_cycles := if remdays < 0 then qc_cycles - 1 else qc_cycles
  let remdays := if remdays < 0 then remdays + days_per_400y else remdays
  let c_cycles := remdays.tdiv days_per_100y
  let c_cycles := if c_cycles = 4 then c_cycles - 1 else c_cycles
  let remdays := remdays - c_cycles * days_per_100y
  let q_cycles := remdays.tdiv days_per_4y
  let q_cycles := if q_cycles = 25 then q_cycles - 1 else q_cycles
  let remdays := remdays - q_cycles * days_per_4y
  let remyears := remdays.tdiv 365
  let remyears := if remyears = 4 then remyears - 1 else remyears
  let remdays := remdays - remyears * 365
  let year : Int := 2000 + remyears + 4 * q_cycles + 100 * c_cycles + 400 * qc_cycles
  let mp := monthLoop monthsTable remdays.toNat
  let mday : Nat := mp.2 + 1
  let year := if mp.1 + 2 > 12 then year + 1 else year
  let mon : Nat := if mp.1 + 2 > 12 then mp.1 - 10 else mp.1 + 2
  let wday : Int := (3 + days).tmod 7
  let wday := if wday ≤ 0 then wday + 7 else wday
  let hour := secs_of_day / 3600
  let minute := secs_of_day % 3600 / 60
  let second := secs_of_day % 60
  wdayName wday.toNat ++ ", " ++ pad2 mday ++ " " ++ monName mon ++ " " ++
    pad4 year.toNat ++ " " ++ pad2 hour ++ ":" ++ pad2 minute ++ ":" ++
    pad2 second ++ " GMT"

/-- `ExplorerEntry::new` (src/explorer.rs lines 50-77).  In source order:
`fs::metadata(&path)` with every failure mapped to
`ExplorerError::MissingSymlinkTarget(path)` by `map_err(|_| ...)`;
`file.file_name().to_str()` failing as `InvalidFileName(path)`;
`metadata.modified()?` propagating a generic io error; then
classification by `metadata.is_dir()` into `Directory { name, mtime }`
or `File { name, size: metadata.len(), mtime }` with
`mtime = httpdate::fmt_http_date(modified)`. -/
def ExplorerEntry.new (file : DirEntry) : Except ExplorerError ExplorerEntry :=
  match file.metadata with
  | .error _ => .error (.missingSymlinkTarget file.path)
  | .ok metadata =>
    match file.file_name with
    | none => .error (.invalidFileName file.path)
    | some name =>
      match metadata.modified with
      | .error _ => .error .ioError
      | .ok modified =>
        let mtime := fmt_http_date modified
        if metadata.is_dir then
          .ok (.directory mtime name)
        else
          .ok (.file mtime name metadata.len)

/-- A JSON value, sufficient for the wire schema of the serializer. -/
inductive Json where
  | str (s : String)
  | num (n : Nat)
  | arr (elems : List Json)
  | obj (fields : List (String × Json))

/-- Field lookup in a JSON object (first match wins, as in a decoder). -/
def lookupField : List (String × Json) → String → Option Json
  | [], _ => none
  | (k, v) :: rest, key => if k = key then some v else lookupField rest key

/-- Key lookup on a JSON value; `none` on non-objects. -/
def Json.lookupKey : Json → String → Option Json
  | .obj fields, key => lookupField fields key
  | _, _ => none

/-- Whether a JSON value is an object carrying the given key. -/
def Json.hasKey (j : Json) (key : String) : Bool :=
  (j.lookupKey key).isSome

/-- The serde serialization of one `ExplorerEntry` under
`#[serde(tag = "type")] #[serde(rename_all = "lowercase")]`: an object
whose first field is the `"type"` tag (`"directory"` / `"file"`),
followed by the variant's fields in declaration order; `size` is emitted
only by the `File` variant. -/
def ExplorerEntry.toJson : ExplorerEntry → Json
  | .directory mtime name =>
    .obj [("type", .str "directory"), ("mtime", .str mtime), ("name", .str name)]
  | .file mtime name size =>
    .obj [("type", .str "file"), ("mtime", .str mtime), ("name", .str name),
          ("size", .num size)]

/-- The serde serialization of the entry vector: a JSON array of the
per-entry objects, in the same order. -/
def serializeEntries (l : List ExplorerEntry) : Json :=
  .arr (l.map ExplorerEntry.toJson)

/-- A decoder for the wire schema: reads the `"type"` tag and then the
variant's fields.  Inverse of `ExplorerEntry.toJson`. -/
def entryFromJson (j : Json) : Option ExplorerEntry :=
  match j.lookupKey "type" with
  | some (.str "directory") =>
    match j.lookupKey "mtime", j.lookupKey "name" with
    | some (.str mtime), some (.str name) => some (.directory mtime name)
    | _, _ => none
  | some (.str "file") =>
    match j.lookupKey "mtime", j.lookupKey "name", j.lookupKey "size" with
    | some (.str mtime), some (.str name), some (.num size) =>
      some (.file mtime name size)
    | _, _, _ => none
  | _ => none

/-- Element-wise decoding of a list of JSON objects; fails if any
element fails. -/
def entriesFromJsonList : List Json → Option (List ExplorerEntry)
  | [] => some []
  | j :: rest =>
    match entryFromJson j, entriesFromJsonList rest with
    | some e, some l => some (e :: l)
    | _, _ => none

/-- Array decoder: the element-wise decoder over a JSON array. -/
def entriesFromJson (j : Json) : Option (List ExplorerEntry) :=
  match j with
  | .arr elems => entriesFromJsonList elems
  | _ => none

/-- JSON string escaping as performed by sonic_rs / serde: quote,
backslash and control characters are escaped, everything else is passed
through. -/
def escapeJsonChar (c : Char) : String :=
  if c = '"' then "\\\""
  else if c = '\\' then "\\\\"
  else if c = '\x08' then "\\b"
  else if c = '\x0c' then "\\f"
  else if c = '\n' then "\\n"
  else if c = '\x0d' then "\\r"
  else if c = '\t' then "\\t"
  else if c.toNat < 32 then
    "\\u00" ++ toString (Nat.toDigits 16 (c.toNat / 16)) ++
      toString (Nat.toDigits 16 (c.toNat % 16))
  else String.singleton c

/-- A JSON string literal: escaped content between double quotes. -/
def encodeJsonString (s : String) : String :=
  "\"" ++ String.join (s.toList.map escapeJsonChar) ++ "\""

/-- The compact textual serialization of one entry, matching
`ExplorerEntry.toJson` field for field. -/
def ExplorerEntry.toJsonString : ExplorerEntry → String
  | .directory mtime name =>
    "\x7b\"type\":\"directory\",\"mtime\":" ++ encodeJsonString mtime ++
      ",\"name\":" ++ encodeJsonString name ++ "\x7d"
  | .file mtime name size =>
    "\x7b\"type\":\"file\",\"mtime\":" ++ encodeJsonString mtime ++
      ",\"name\":" ++ encodeJsonString name ++ ",\"size\":" ++ toString size ++ "\x7d"

/-- `sonic_rs::to_string(&file_list)` (src/service.rs line 117): the
compact JSON array text. -/
def sonic_to_string (l : List ExplorerEntry) : String :=
  "[" ++ String.intercalate "," (l.map ExplorerEntry.toJsonString) ++ "]"

/-- `enum QueryResult` (src/service.rs lines 13-17). -/
inductive QueryResult where
  | success (data : String)
  | pathNotFound
  | notDirectory
deriving DecidableEq, Repr

/-- The non-`QueryResult` ways `query_directory` can end: an `Err`
returned through `?` (canonicalize, read_dir, or a per-entry resolver
error), distinguished from the `QueryResult` cases and from a panic. -/
inductive FatalError where
  | canonicalizeError
  | readDirError
  | entryError (e : ExplorerError)
deriving DecidableEq, Repr

/-- The full outcome of `query_directory`: `ok` for `Ok(QueryResult)`,
`fatal` for `Err(e)`, `panic` for an uncaught worker panic. -/
inductive QueryOutcome where
  | ok (r : QueryResult)
  | fatal (e : FatalError)
  | panic
deriving DecidableEq, Repr

/-- Result of the `read_dir(..).par_bridge().map(|entry|
ExplorerEntry::new(&entry.unwrap())).collect::<Result<Vec<_>, _>>()`
stage. -/
inductive CollectResult where
  | panic
  | fails (e : ExplorerError)
  | ok (l : List ExplorerEntry)
deriving DecidableEq, Repr

/-- The per-item stage of the scan (src/service.rs lines 110-113).  Each
iterator item is a `Result<DirEntry>`, modelled as `Option DirEntry`
(`none` = iteration error): `entry.unwrap()` panics on `none`, otherwise
`ExplorerEntry.new` runs and the `Result` collect short-circuits on the
first error.  rayon's `par_bridge` makes completion order and the
panic/error race nondeterministic; this model fixes left-to-right order,
and the theorems below do not depend on that choice. -/
def collectEntries : List (Option DirEntry) → CollectResult
  | [] => .ok []
  | none :: _ => .panic
  | some file :: rest =>
    match ExplorerEntry.new file with
    | .error e => .fails e
    | .ok entry =>
      match collectEntries rest with
      | .panic => .panic
      | .fails e => .fails e
      | .ok l => .ok (entry :: l)

/-- What the filesystem answers for one concrete path, as consumed by
`query_directory`: `directory.exists()`, `directory.is_dir()`, whether
`canonicalize()` succeeds, and the `read_dir` listing (`Except` for the
initial open, `Option DirEntry` items for per-item iterator results). -/
structure PathInfo where
  path_exists : Bool
  is_dir : Bool
  canonicalize_ok : Bool
  read_dir : Except Unit (List (Option DirEntry))

/-- `Service::query_directory` (src/service.rs lines 99-128) on the
filesystem's answers for the requested path: the exists / is_dir
classification, then `canonicalize()?`, `read_dir(..)?`, the parallel
collect, `par_sort`, and `sonic_rs::to_string`. -/
def query_directory (p : PathInfo) : QueryOutcome :=
  if !p.path_exists then .ok .pathNotFound
  else if !p.is_dir then .ok .notDirectory
  else if !p.canonicalize_ok then .fatal .canonicalizeError
  else
    match p.read_dir with
    | .error _ => .fatal .readDirError
    | .ok items =>
      match collectEntries items with
      | .panic => .panic
      | .fails e => .fatal (.entryError e)
      | .ok file_list => .ok (.success (sonic_to_string (sortEntries file_list)))

/-- `make_http_response` (src/service.rs lines 42-50): the closure
formatting status line, `Content-Type`, byte-length `Content-Length` and
body.  Rust `content.len()` is the UTF-8 byte length. -/
def make_http_response (status content_type content : String) : String :=
  "HTTP/1.1 " ++ status ++ "\x0d\nContent-Type: " ++ content_type ++
    "\x0d\nContent-Length: " ++ toString content.utf8ByteSize ++
    "\x0d\n\x0d\n" ++ content

/-- `PathBuf::join` for the shapes that occur here: an absolute argument
replaces the base, otherwise the argument is appended with a single
separator. -/
def joinPath (base p : String) : String :=
  if p.startsWith "/" then p
  else if base.endsWith "/" then base ++ p
  else base ++ "/" ++ p

/-- How `handle_request` ends: a response string written to the socket,
an `Err` propagated to the caller by `Self::query_directory(..)?`, or a
panic escaping from the scan. -/
inductive RequestOutcome where
  | ok (response : String)
  | fatal (e : FatalError)
  | panic
deriving DecidableEq, Repr

/-- The dispatch half of `Service::handle_request` (src/service.rs lines
77-97): `full_path = directory.join(&request_parts[1][1..])` followed by
the match on `Self::query_directory(full_path)?` mapping `Success` to a
`200 OK` JSON response, `PathNotFound` to `404 Not Found` with body
`"Path not found!"`, and `NotDirectory` to `400 Bad Request` with body
`"Not a directory!"`.  `fs` gives the filesystem's answers per path;
`rel` is the request path with its leading slash already stripped. -/
def handle_request (fs : String → PathInfo) (directory rel : String) :
    RequestOutcome :=
  let full_path := joinPath directory rel
  match query_directory (fs full_path) with
  | .panic => .panic
  | .fatal e => .fatal e
  | .ok (.success data_text) =>
    .ok (make_http_response "200 OK" "application/json" data_text)
  | .ok .pathNotFound =>
    .ok (make_http_response "404 Not Found" "text/plain" "Path not found!")
  | .ok .notDirectory =>
    .ok (make_http_response "400 Bad Request" "text/plain" "Not a directory!")

example : fmt_http_date 784887151 = "Tue, 15 Nov 1994 08:12:31 GMT" := by decide

example : fmt_http_date 0 = "Thu, 01 Jan 1970 00:00:00 GMT" := by decide

example : fmt_http_date 951868800 = "Wed, 01 Mar 2000 00:00:00 GMT" := by decide

lemma strCompare_le_trans {x y z : String} (h1 : compare x y ≠ Ordering.gt)
    (h2 : compare y z ≠ Ordering.gt) : compare x z ≠ Ordering.gt :=
  compare_le_iff_le.mpr (le_trans (compare_le_iff_le.mp h1) (compare_le_iff_le.mp h2))

lemma entryLe_trans : ∀ (a b c : ExplorerEntry),
    entryLe a b = true → entryLe b c = true → entryLe a c = true := by
  intro a b c h1 h2
  cases a <;> cases b <;> cases c <;>
    simp [entryLe, ExplorerEntry.cmp] at * <;>
    exact strCompare_le_trans h1 h2

lemma entryLe_total : ∀ (a b : ExplorerEntry), (entryLe a b || entryLe b a) = true := by
  intro a b
  cases a <;> cases b <;>
    simp [entryLe, ExplorerEntry.cmp] <;>
    exact (le_total _ _).imp compare_le_iff_le.mpr compare_le_iff_le.mpr

lemma entryLe_directory_first {a b : ExplorerEntry} (h : entryLe a b = true) :
    a.isFile = true → b.isFile = true := by
  cases a <;> cases b <;>
    simp [entryLe, ExplorerEntry.cmp, ExplorerEntry.isFile] at *

lemma entryLe_name_mono {a b : ExplorerEntry} (h : entryLe a b = true)
    (hv : a.isDirectory = b.isDirectory) : a.name ≤ b.name := by
  cases a <;> cases b <;>
    simp [entryLe, ExplorerEntry.cmp, ExplorerEntry.isDirectory, ExplorerEntry.name] at * <;>
    exact String.le_iff_toList_le.mp (compare_le_iff_le.mp h)

/-- C3: the sort stage outputs a permutation of its input in which every
Directory entry precedes every File entry (pairwise: a File is never
followed by a Directory), and within each variant group the names are
non-decreasing under byte-wise string comparison. -/
theorem sort_invariant (l : List ExplorerEntry) :
    (sortEntries l).Perm l ∧
    (sortEntries l).Pairwise (fun a b => a.isFile = true → b.isFile = true) ∧
    (sortEntries l).Pairwise
      (fun a b => a.isDirectory = b.isDirectory → a.name ≤ b.name) := by
  refine ⟨List.mergeSort_perm l entryLe, ?_, ?_⟩
  · exact (List.sorted_mergeSort entryLe_trans entryLe_total l).imp
      (fun h => entryLe_directory_first h)
  · exact (List.sorted_mergeSort entryLe_trans entryLe_total l).imp
      (fun h hv => entryLe_name_mono h hv)

/-- C10: `cmp` depends only on the variant tag and the name (it returns
`Equal` for same-variant entries with equal names whatever their mtime
or size), `partial_cmp` always returns `Some(cmp)`, the induced `≤` is
total and transitive, yet comparison-equality differs from the derived
structural equality. -/
theorem cmp_total_order_ignores_metadata :
    (∀ a b : ExplorerEntry, a.pcmp b = some (a.cmp b)) ∧
    (∀ ma mb n, ExplorerEntry.cmp (.directory ma n) (.directory mb n) = Ordering.eq) ∧
    (∀ ma mb n sa sb,
      ExplorerEntry.cmp (.file ma n sa) (.file mb n sb) = Ordering.eq) ∧
    (∀ a b c : ExplorerEntry,
      entryLe a b = true → entryLe b c = true → entryLe a c = true) ∧
    (∀ a b : ExplorerEntry, (entryLe a b || entryLe b a) = true) ∧
    (ExplorerEntry.cmp (.file "m1" "n" 1) (.file "m2" "n" 2) = Ordering.eq ∧
      ExplorerEntry.file "m1" "n" 1 ≠ ExplorerEntry.file "m2" "n" 2) := by
  refine ⟨fun a b => rfl, ?_, ?_, entryLe_trans, entryLe_total, ?_, ?_⟩
  · intro ma mb n
    exact compare_eq_iff_eq.mpr rfl
  · intro ma mb n sa sb
    exact compare_eq_iff_eq.mpr rfl
  · exact compare_eq_iff_eq.mpr rfl
  · decide

/-- Closed witness for `cmp_total_order_ignores_metadata`: its
transitivity component applied at concrete entries. -/
theorem cmp_total_order_ignores_metadata_witness :
    entryLe (ExplorerEntry.directory "x" "a") (ExplorerEntry.file "z" "a" 0) = true :=
  cmp_total_order_ignores_metadata.2.2.2.1
    (ExplorerEntry.directory "x" "a") (ExplorerEntry.directory "y" "b")
    (ExplorerEntry.file "z" "a" 0) (by decide) (by decide)

lemma entryFromJson_toJson (e : ExplorerEntry) :
    entryFromJson e.toJson = some e := by
  cases e <;> rfl

lemma entriesFromJsonList_map (l : List ExplorerEntry) :
    entriesFromJsonList (l.map ExplorerEntry.toJson) = some l := by
  induction l with
  | nil => rfl
  | cons e rest ih => simp [entriesFromJsonList, entryFromJson_toJson, ih]

/-- C7: decoding the serializer's JSON output reconstructs the input
entry sequence exactly (variant, name, mtime, size), in the same
order. -/
theorem schema_round_trip (l : List ExplorerEntry) :
    entriesFromJson (serializeEntries l) = some l := by
  simp [entriesFromJson, serializeEntries, entriesFromJsonList_map]

/-- C5: every serialized object carries the `"type"` tag with literal
value `"directory"` or `"file"` according to the variant, the `"size"`
key is present exactly on file objects, and the serialized array is the
entry list's objects in the same order. -/
theorem serialized_schema_shape (l : List ExplorerEntry) :
    serializeEntries l = Json.arr (l.map ExplorerEntry.toJson) ∧
    ∀ e ∈ l,
      (ExplorerEntry.toJson e).lookupKey "type" =
        some (Json.str (if e.isDirectory then "directory" else "file")) ∧
      (ExplorerEntry.toJson e).hasKey "size" = e.isFile := by
  refine ⟨rfl, fun e _ => ?_⟩
  cases e <;>
    simp [ExplorerEntry.toJson, Json.lookupKey, Json.hasKey, lookupField,
      ExplorerEntry.isDirectory, ExplorerEntry.isFile]

/-- Closed witness for `serialized_schema_shape`: the file object of a
concrete singleton list carries the `"size"` key. -/
theorem serialized_schema_shape_witness :
    (ExplorerEntry.toJson (ExplorerEntry.file "m" "a" 3)).hasKey "size" =
      (ExplorerEntry.file "m" "a" 3).isFile := by
  have h := (serialized_schema_shape [ExplorerEntry.file "m" "a" 3]).2
    (ExplorerEntry.file "m" "a" 3) (by simp)
  exact h.2

/-- C6: when metadata is fetched and the name is valid text, the
resolver classifies by `is_dir()` into `Directory`, else `File` with
`size = len()`, with `mtime = fmt_http_date(modified)`; and
`fmt_http_date` renders the RFC 7231 IMF-fixdate form, checked on the
RFC's own example timestamp. -/
theorem resolver_success_classification :
    (∀ (file : DirEntry) (md : Metadata) (n : String) (t : Nat),
      file.metadata = Except.ok md → file.file_name = some n →
      md.modified = Except.ok t →
      ExplorerEntry.new file =
        Except.ok (if md.is_dir then
          ExplorerEntry.directory (fmt_http_date t) n
        else ExplorerEntry.file (fmt_http_date t) n md.len)) ∧
    fmt_http_date 784887151 = "Tue, 15 Nov 1994 08:12:31 GMT" := by
  constructor
  · intro file md n t hm hn ht
    simp [ExplorerEntry.new, hm, hn, ht]
    exact (apply_ite Except.ok _ _ _).symm
  · decide

/-- Closed witness for `resolver_success_classification`: a concrete
regular file resolves to a `File` entry with its length and formatted
mtime. -/
theorem resolver_success_classification_witness :
    ExplorerEntry.new
        ⟨"/data/a.txt", some "a.txt", Except.ok ⟨false, 10, Except.ok 784887151⟩⟩ =
      Except.ok (ExplorerEntry.file "Tue, 15 Nov 1994 08:12:31 GMT" "a.txt" 10) := by
  have h := resolver_success_classification.1
    ⟨"/data/a.txt", some "a.txt", Except.ok ⟨false, 10, Except.ok 784887151⟩⟩
    ⟨false, 10, Except.ok 784887151⟩ "a.txt" 784887151 rfl rfl rfl
  rw [h, resolver_success_classification.2]
  rfl

/-- C2 counterexample: a permission-denied metadata failure is
classified as `MissingSymlinkTarget`, not as a distinct generic
metadata error — `map_err(|_| MissingSymlinkTarget(..))` discards the
failure cause. -/
theorem permission_error_collapsed_cex :
    ExplorerEntry.new
        ⟨"/data/secret", some "secret", Except.error MetadataError.permissionDenied⟩ =
      Except.error (ExplorerError.missingSymlinkTarget "/data/secret") := rfl

/-- C2 amended: the resolver fails with `MissingSymlinkTarget` whenever
`fs::metadata` fails, regardless of the underlying cause; the only
generic propagated error is a `modified()` failure after a successful
metadata fetch. -/
theorem metadata_error_classification_amended :
    (∀ (file : DirEntry) (err : MetadataError),
      file.metadata = Except.error err →
      ExplorerEntry.new file =
        Except.error (ExplorerError.missingSymlinkTarget file.path)) ∧
    (∀ (file : DirEntry) (md : Metadata) (n : String),
      file.metadata = Except.ok md → file.file_name = some n →
      md.modified = Except.error () →
      ExplorerEntry.new file = Except.error ExplorerError.ioError) := by
  constructor
  · intro file err hm
    simp [ExplorerEntry.new, hm]
  · intro file md n hm hn ht
    simp [ExplorerEntry.new, hm, hn, ht]

/-- Closed witness for `metadata_error_classification_amended`: both
components applied at concrete entries. -/
theorem metadata_error_classification_amended_witness :
    ExplorerEntry.new ⟨"/p", some "p", Except.error MetadataError.otherIo⟩ =
      Except.error (ExplorerError.missingSymlinkTarget "/p") ∧
    ExplorerEntry.new ⟨"/q", some "q", Except.ok ⟨true, 0, Except.error ()⟩⟩ =
      Except.error ExplorerError.ioError :=
  ⟨metadata_error_classification_amended.1
      ⟨"/p", some "p", Except.error MetadataError.otherIo⟩
      MetadataError.otherIo rfl,
    metadata_error_classification_amended.2
      ⟨"/q", some "q", Except.ok ⟨true, 0, Except.error ()⟩⟩
      ⟨true, 0, Except.error ()⟩ "q" rfl rfl rfl⟩

/-- C1 counterexample: a directory whose enumeration succeeds, holding
two children that resolve successfully and one broken-symlink child,
does not yield a two-entry listing — the scan aborts with the
`MissingSymlinkTarget` error, because the `collect::<Result<Vec<_>, _>>()?`
in `query_directory` short-circuits on every per-entry error. -/
theorem broken_symlink_aborts_scan_cex :
    query_directory ⟨true, true, true, Except.ok
        [some ⟨"/data/a.txt", some "a.txt",
            Except.ok ⟨false, 10, Except.ok 784887151⟩⟩,
         some ⟨"/data/broken", some "broken",
            Except.error MetadataError.missingSymlinkTarget⟩,
         some ⟨"/data/b", some "b",
            Except.ok ⟨true, 0, Except.ok 784887151⟩⟩]⟩ =
      QueryOutcome.fatal (FatalError.entryError
        (ExplorerError.missingSymlinkTarget "/data/broken")) := by
  decide

lemma collectEntries_fails_at (pre post : List (Option DirEntry))
    (file : DirEntry) (e : ExplorerError)
    (hpre : ∀ i ∈ pre, ∃ f entry, i = some f ∧
      ExplorerEntry.new f = Except.ok entry)
    (hfile : ExplorerEntry.new file = Except.error e) :
    collectEntries (pre ++ some file :: post) = CollectResult.fails e := by
  induction pre with
  | nil => simp [collectEntries, hfile]
  | cons i rest ih =>
    obtain ⟨f, entry, rfl, hok⟩ := hpre i (List.mem_cons_self _ _)
    have ih' := ih (fun j hj => hpre j (List.mem_cons_of_mem _ hj))
    simp [collectEntries, hok, ih']

lemma collectEntries_panics_at (pre post : List (Option DirEntry))
    (hpre : ∀ i ∈ pre, ∃ f entry, i = some f ∧
      ExplorerEntry.new f = Except.ok entry) :
    collectEntries (pre ++ none :: post) = CollectResult.panic := by
  induction pre with
  | nil => simp [collectEntries]
  | cons i rest ih =>
    obtain ⟨f, entry, rfl, hok⟩ := hpre i (List.mem_cons_self _ _)
    have ih' := ih (fun j hj => hpre j (List.mem_cons_of_mem _ hj))
    simp [collectEntries, hok, ih']

/-- C1 amended: every per-entry resolution failure — the
`MissingSymlinkTarget` class included — aborts the entire scan with that
error; the failing entry is not dropped and no partial listing is
produced. -/
theorem scan_aborts_on_any_entry_error (p : PathInfo)
    (pre post : List (Option DirEntry)) (file : DirEntry) (e : ExplorerError)
    (hex : p.path_exists = true) (hdir : p.is_dir = true)
    (hcan : p.canonicalize_ok = true)
    (hrd : p.read_dir = Except.ok (pre ++ some file :: post))
    (hpre : ∀ i ∈ pre, ∃ f entry, i = some f ∧
      ExplorerEntry.new f = Except.ok entry)
    (hfile : ExplorerEntry.new file = Except.error e) :
    query_directory p = QueryOutcome.fatal (FatalError.entryError e) := by
  have hcol := collectEntries_fails_at pre post file e hpre hfile
  simp [query_directory, hex, hdir, hcan, hrd, hcol]

/-- Closed witness for `scan_aborts_on_any_entry_error`: a directory
with one valid child followed by one broken-symlink child makes the
scan fatal. -/
theorem scan_aborts_on_any_entry_error_witness :
    query_directory ⟨true, true, true, Except.ok
        [some ⟨"/d/x", some "x", Except.ok ⟨true, 0, Except.ok 0⟩⟩,
         some ⟨"/d/bad", some "bad",
            Except.error MetadataError.missingSymlinkTarget⟩]⟩ =
      QueryOutcome.fatal (FatalError.entryError
        (ExplorerError.missingSymlinkTarget "/d/bad")) :=
  scan_aborts_on_any_entry_error
    ⟨true, true, true, Except.ok
      [some ⟨"/d/x", some "x", Except.ok ⟨true, 0, Except.ok 0⟩⟩,
       some ⟨"/d/bad", some "bad",
          Except.error MetadataError.missingSymlinkTarget⟩]⟩
    [some ⟨"/d/x", some "x", Except.ok ⟨true, 0, Except.ok 0⟩⟩] []
    ⟨"/d/bad", some "bad", Except.error MetadataError.missingSymlinkTarget⟩
    (ExplorerError.missingSymlinkTarget "/d/bad")
    rfl rfl rfl rfl
    (by
      intro i hi
      simp at hi
      exact ⟨⟨"/d/x", some "x", Except.ok ⟨true, 0, Except.ok 0⟩⟩,
        ExplorerEntry.directory (fmt_http_date 0) "x", hi, rfl⟩)
    rfl

/-- C9: an `Err` item produced while iterating the directory stream hits
`entry.unwrap()` and panics the scan, instead of being returned as a
classified error or an internal-error result. -/
theorem scan_panics_on_iteration_error (p : PathInfo)
    (pre post : List (Option DirEntry))
    (hex : p.path_exists = true) (hdir : p.is_dir = true)
    (hcan : p.canonicalize_ok = true)
    (hrd : p.read_dir = Except.ok (pre ++ none :: post))
    (hpre : ∀ i ∈ pre, ∃ f entry, i = some f ∧
      ExplorerEntry.new f = Except.ok entry) :
    query_directory p = QueryOutcome.panic ∧
    (∀ e, (QueryOutcome.panic : QueryOutcome) ≠ QueryOutcome.fatal e) ∧
    (∀ r, (QueryOutcome.panic : QueryOutcome) ≠ QueryOutcome.ok r) := by
  have hcol := collectEntries_panics_at pre post hpre
  refine ⟨by simp [query_directory, hex, hdir, hcan, hrd, hcol], ?_, ?_⟩
  · intro e h
    cases h
  · intro r h
    cases h

/-- Closed witness for `scan_panics_on_iteration_error`: a listing whose
only item is an iteration error panics. -/
theorem scan_panics_on_iteration_error_witness :
    query_directory ⟨true, true, true, Except.ok [none]⟩ =
      QueryOutcome.panic :=
  (scan_panics_on_iteration_error ⟨true, true, true, Except.ok [none]⟩ [] []
    rfl rfl rfl rfl (by simp)).1

/-- C4: the orchestrator joins the relative request path onto the root;
a non-existent joined path yields the `404` "Path not found!" response,
an existing non-directory yields the `400` "Not a directory!" response,
a successful scan yields the `200` JSON response with the scan body, and
a fatal scan error propagates as `Err` to the caller — an outcome
distinct from every written response. -/
theorem request_outcome_mapping (fs : String → PathInfo)
    (directory rel : String) :
    ((fs (joinPath directory rel)).path_exists = false →
      handle_request fs directory rel = RequestOutcome.ok
        (make_http_response "404 Not Found" "text/plain" "Path not found!")) ∧
    ((fs (joinPath directory rel)).path_exists = true →
      (fs (joinPath directory rel)).is_dir = false →
      handle_request fs directory rel = RequestOutcome.ok
        (make_http_response "400 Bad Request" "text/plain" "Not a directory!")) ∧
    (∀ body, query_directory (fs (joinPath directory rel)) =
        QueryOutcome.ok (QueryResult.success body) →
      handle_request fs directory rel = RequestOutcome.ok
        (make_http_response "200 OK" "application/json" body)) ∧
    (∀ e, query_directory (fs (joinPath directory rel)) =
        QueryOutcome.fatal e →
      handle_request fs directory rel = RequestOutcome.fatal e) ∧
    (∀ e s, (RequestOutcome.fatal e : RequestOutcome) ≠ RequestOutcome.ok s) := by
  refine ⟨?_, ?_, ?_, ?_, ?_⟩
  · intro h
    simp [handle_request, query_directory, h]
  · intro h1 h2
    simp [handle_request, query_directory, h1, h2]
  · intro body h
    simp [handle_request, h]
  · intro e h
    simp [handle_request, h]
  · intro e s h
    cases h

/-- Closed witness for `request_outcome_mapping`: a filesystem that
reports every path missing produces the `404` response. -/
theorem request_outcome_mapping_witness :
    handle_request (fun _ => ⟨false, false, false, Except.error ()⟩) "/srv" "x" =
      RequestOutcome.ok
        (make_http_response "404 Not Found" "text/plain" "Path not found!") :=
  (request_outcome_mapping (fun _ => ⟨false, false, false, Except.error ()⟩)
    "/srv" "x").1 rfl

/-- C8: a request resolving to an existing directory with zero children
succeeds with status `200` and response body exactly `[]`. -/
theorem empty_directory_response (fs : String → PathInfo)
    (directory rel : String)
    (hex : (fs (joinPath directory rel)).path_exists = true)
    (hdir : (fs (joinPath directory rel)).is_dir = true)
    (hcan : (fs (joinPath directory rel)).canonicalize_ok = true)
    (hrd : (fs (joinPath directory rel)).read_dir = Except.ok []) :
    handle_request fs directory rel = RequestOutcome.ok
      (make_http_response "200 OK" "application/json" "[]") ∧
    make_http_response "200 OK" "application/json" "[]" =
      "HTTP/1.1 200 OK\x0d\nContent-Type: application/json\x0d\nContent-Length: 2\x0d\n\x0d\n[]" := by
  constructor
  · simp [handle_request, query_directory, hex, hdir, hcan, hrd,
      collectEntries, sortEntries, sonic_to_string]
    rfl
  · decide

/-- Closed witness for `empty_directory_response`: a concrete empty
directory answered with the `200` response whose body is `[]`. -/
theorem empty_directory_response_witness :
    handle_request (fun _ => ⟨true, true, true, Except.ok []⟩) "/srv" "d" =
      RequestOutcome.ok
        (make_http_response "200 OK" "application/json" "[]") :=
  (empty_directory_response (fun _ => ⟨true, true, true, Except.ok []⟩)
    "/srv" "d" rfl rfl rfl rfl).1
